import Mathlib

/-! Shallow embedding of the Hikvision capture tool (src/camera_capture.py,
class HikvisionOpenCVCapture) and proofs about the behaviour of its
capture-and-record workflow.

Modelling conventions:
* Machine floats of the source (frame sharpness scores, kilobyte sizes)
  are modelled as exact rationals.
* External library calls (requests, cv2, numpy, the file system, the
  clock) are modelled as explicit environment data supplied to the
  embedded functions: a CandidateEnv describes how one RTSP stream
  location behaves during one attempt, a CaptureEnv the whole call.
* The persistent JSON history file is modelled as a list of records
  threaded through the functions (read-modify-write of the whole array,
  exactly as the source does).
* Exceptions of the source are modelled by explicit failure values; the
  per-attempt try/except of _capture_single_rtsp (lines 229-236) is the
  exn field of CandidateEnv.
-/

namespace Scanner

/-- Python str.strip() with no argument: remove whitespace from both ends
of the string (modelled over the character list). -/
def pyStrip (s : String) : String :=
  String.mk
    (((s.data.dropWhile Char.isWhitespace).reverse.dropWhile
      Char.isWhitespace).reverse)

/-- Drop the last n characters of a string, as the Python slice s[:-n]
does on a string of more than n characters. -/
def dropRightData (s : String) (n : Nat) : String :=
  String.mk (s.data.take (s.data.length - n))

/-- Zero-padded six-digit rendering of the microsecond field, as produced
by the %f directive of strftime. -/
def pad6 (n : Nat) : String :=
  let s := toString n
  String.mk (List.replicate (6 - s.length) '0') ++ s

/-- Millisecond-resolution timestamp string: the source formats
%Y%m%d_%H%M%S_%f and then drops the last three characters, truncating the
six-digit microsecond field to milliseconds (camera_capture.py line 79).
The date-and-seconds part of the format is abstracted as the string sec;
micros is the microsecond field of the clock. -/
def strftime_ms (sec : String) (micros : Nat) : String :=
  dropRightData (sec ++ "_" ++ pad6 micros) 3

/-- Image filename built by capture_with_opencv (line 80):
CV_<barcode>_<timestamp>.jpg. -/
def capture_filename (barcode timestamp : String) : String :=
  "CV_" ++ barcode ++ "_" ++ timestamp ++ ".jpg"

/-- Rounding as done by Python round(x, d): round half to even at d
decimal digits. Used for the file_size_kb and best_frame_quality fields. -/
def roundHalfEven (x : ℚ) : ℤ :=
  let f := Int.floor x
  let r := x - f
  if r < 1/2 then f
  else if 1/2 < r then f + 1
  else if f % 2 = 0 then f else f + 1

/-- Python round(x, d) on our rational model of floats. -/
def pyRound (x : ℚ) (d : Nat) : ℚ :=
  (roundHalfEven (x * 10 ^ d) : ℚ) / 10 ^ d

/-- Arithmetic mean, as numpy computes it. -/
def npmean (xs : List ℚ) : ℚ := xs.sum / xs.length

/-- Population variance (numpy .var() with its default ddof = 0). The
empty case never arises for decoded camera frames; in the rational model
the division by zero makes it 0. -/
def npvar (xs : List ℚ) : ℚ :=
  (xs.map (fun x => (x - npmean xs) ^ 2)).sum / xs.length

/-- One decoded frame, abstracted to what _calculate_frame_quality needs:
lap is the list of values of the Laplacian-filtered grayscale image
(cv2.cvtColor and cv2.Laplacian are external library calls whose output we
take as environment data), and scoreExn records whether one of those
external calls raised during scoring. -/
structure FrameData where
  lap : List ℚ
  scoreExn : Bool
deriving DecidableEq

/-- Embedding of _calculate_frame_quality (lines 238-255): the variance of
the Laplacian response; any exception during scoring is caught and mapped
to 0. -/
def calculate_frame_quality (f : FrameData) : ℚ :=
  if f.scoreExn then 0 else npvar f.lap

/-- Embedding of the frame acquisition loop of _capture_single_rtsp
(lines 152-180). The list holds the successive results of cap.read()
within the 15 second window (none models a failed or empty read, which
breaks the loop). Accumulators mirror the source: frames_captured,
max_frame_quality (initially 0), best_frame together with its quality
(the saved frame is identified by its 1-based frame number). The loop
stops early once at least 10 frames are read and the best quality
exceeds 100. -/
def frameLoop : List (Option FrameData) → Nat → ℚ → Option (Nat × ℚ) →
    Nat × Option (Nat × ℚ)
  | [], frames, _, best => (frames, best)
  | none :: _, frames, _, best => (frames, best)
  | some f :: rest, frames, maxq, best =>
    let fc := frames + 1
    let q := calculate_frame_quality f
    let maxq2 := if maxq < q then q else maxq
    let best2 := if maxq < q then some (fc, q) else best
    if 10 ≤ fc ∧ 100 < maxq2 then (fc, best2)
    else frameLoop rest fc maxq2 best2

/-- Embedding of _get_quality_level (lines 257-268). The returned labels
are the literal strings of the source; the spec renders them as ultra-hd,
hd, standard, normal and low respectively. -/
def get_quality_level (file_size : Nat) : String :=
  if file_size > 500 * 1024 then "超高清"
  else if file_size > 200 * 1024 then "高清"
  else if file_size > 100 * 1024 then "标清"
  else if file_size > 50 * 1024 then "普通"
  else "低质量"

/-- One element of the capture_records.json array (lines 272-284). -/
structure CaptureRecord where
  barcode : String
  filename : String
  file_path : String
  timestamp : String
  description : String
  camera_ip : String
  capture_time : String
  capture_method : String
  file_size : Nat
  file_size_kb : ℚ
  quality : String
deriving DecidableEq

/-- The fields of HikvisionOpenCVCapture relevant to capture: connection
state as set by connect_camera, plus the configuration used to build
paths and records. has_cv2 models the import cv2 check at lines 74-77. -/
structure CameraState where
  camera_ip : String
  username : String
  password : String
  save_dir : String
  is_connected : Bool
  has_cv2 : Bool
deriving DecidableEq

/-- Environment of one attempt against one RTSP URL: exn is the exception
(message) raised inside the attempt, if any, caught by the try/except of
_capture_single_rtsp; opens models cap.isOpened(); reads the sequence of
cap.read() results inside the 15 second window; writeOk whether the
temporary file exists after cv2.imwrite; file_size the size reported by
os.path.getsize; save_ts and capture_time the clock strings read inside
_save_capture_info. -/
structure CandidateEnv where
  exn : Option String
  opens : Bool
  reads : List (Option FrameData)
  writeOk : Bool
  file_size : Nat
  save_ts : String
  capture_time : String
deriving DecidableEq

/-- Environment of one capture_with_opencv call: the clock at line 79
(seconds part and microsecond field) and the behaviour of each of the
four RTSP URLs of the rtsp_urls list, in order. -/
structure CaptureEnv where
  now_sec : String
  now_micros : Nat
  candidates : List CandidateEnv
deriving DecidableEq

/-- The four RTSP URLs built at lines 86-93, in priority order. -/
def rtsp_urls (cam : CameraState) : List String :=
  let base := "rtsp://" ++ cam.username ++ ":" ++ cam.password ++ "@" ++
    cam.camera_ip ++ ":554"
  [base ++ "/Streaming/Channels/101",
   base ++ "/Streaming/Channels/1",
   base ++ "/h264/ch1/main/av_stream",
   base ++ "/ISAPI/Streaming/channels/101"]

/-- Embedding of _save_capture_info (lines 270-301): build the record and
append it to the history array (a missing or corrupt file was already
normalised to the empty list by the caller-side model). -/
def save_capture_info (cam : CameraState)
    (barcode_data filename file_path timestamp description capture_method : String)
    (capture_time : String) (file_size : Nat) (records : List CaptureRecord) :
    CaptureRecord × List CaptureRecord :=
  let info : CaptureRecord := {
    barcode := barcode_data
    filename := filename
    file_path := file_path
    timestamp := timestamp
    description := description
    camera_ip := cam.camera_ip
    capture_time := capture_time
    capture_method := capture_method
    file_size := file_size
    file_size_kb := pyRound ((file_size : ℚ) / 1024) 1
    quality := get_quality_level file_size }
  (info, records ++ [info])

/-- The success dictionary returned by _capture_single_rtsp at lines
210-223, as a structure. -/
structure SuccessData where
  message : String
  filename : String
  file_path : String
  file_size : Nat
  file_size_kb : ℚ
  barcode : String
  quality : String
  method : String
  frames_captured : Nat
  best_frame_quality : ℚ
  info : CaptureRecord
deriving DecidableEq

/-- Result dictionary of a capture call: either a failure with a message
or the success payload. -/
inductive CapResult where
  | failure (message : String)
  | success (d : SuccessData)
deriving DecidableEq

/-- The success flag of the result dictionary. -/
def CapResult.isSuccess : CapResult → Bool
  | .failure _ => false
  | .success _ => true

/-- The payload of the success dictionary a candidate attempt produces
when it succeeds (lines 210-223). -/
def success_data (cam : CameraState) (c : CandidateEnv)
    (barcode_data save_name file_path description : String) (method_num : Nat) :
    SuccessData :=
  let fl := frameLoop c.reads 0 0 none
  let bq := match fl.2 with
    | some p => p.2
    | none => 0
  let info := (save_capture_info cam barcode_data save_name file_path c.save_ts
    description ("opencv_rtsp_" ++ toString method_num) c.capture_time
    c.file_size []).1
  { message := "OpenCV RTSP抓图成功 (方法" ++ toString method_num ++ ")"
    filename := save_name
    file_path := file_path
    file_size := c.file_size
    file_size_kb := pyRound ((c.file_size : ℚ) / 1024) 1
    barcode := barcode_data
    quality := get_quality_level c.file_size
    method := "opencv_rtsp_" ++ toString method_num
    frames_captured := fl.1
    best_frame_quality := pyRound bq 2
    info := info }

/-- The success dictionary a candidate attempt produces when it succeeds
(lines 210-223). -/
def candidate_success_result (cam : CameraState) (c : CandidateEnv)
    (barcode_data save_name file_path description : String) (method_num : Nat) :
    CapResult :=
  .success (success_data cam c barcode_data save_name file_path description
    method_num)

/-- Embedding of _capture_single_rtsp (lines 130-236): one attempt against
one RTSP URL. Returns the result dictionary and the new history array.
Any exception inside the attempt is caught by the try/except at lines
229-236 and yields the failure dictionary with the exception message; the
unconditional cap.release() is a resource action with no observable state
here. -/
def capture_single_rtsp (cam : CameraState) (c : CandidateEnv)
    (barcode_data save_name file_path description : String) (method_num : Nat)
    (records : List CaptureRecord) : CapResult × List CaptureRecord :=
  match c.exn with
  | some e => (.failure ("RTSP抓图异常: " ++ e), records)
  | none =>
    if c.opens then
      match frameLoop c.reads 0 0 none with
      | (_, some _) =>
        if c.writeOk then
          let pr := save_capture_info cam barcode_data save_name file_path
            c.save_ts description ("opencv_rtsp_" ++ toString method_num)
            c.capture_time c.file_size records
          (candidate_success_result cam c barcode_data save_name file_path
            description method_num, pr.2)
        else (.failure "图片保存失败", records)
      | (_, none) => (.failure "未捕获到有效帧", records)
    else (.failure "无法打开RTSP连接", records)

/-- Whether one candidate attempt succeeds; this depends only on its
environment, not on the history state. -/
def attempt_succeeds (c : CandidateEnv) : Bool :=
  c.exn.isNone && c.opens && (frameLoop c.reads 0 0 none).2.isSome && c.writeOk

/-- Full outcome of a capture call: the returned dictionary, the final
history array, and how many candidate URLs were attempted (the attempted
count makes the early-exit behaviour observable in the model). -/
structure CapOut where
  result : CapResult
  records : List CaptureRecord
  attempted : Nat
deriving DecidableEq

/-- Embedding of the candidate loop of capture_with_opencv (lines
95-128): try each RTSP URL in order, keep the best successful result by
strict file-size comparison (best_result, max_file_size), return
immediately when a result exceeds 200KB, and fall back to the best seen
or the aggregate failure. The method_num counter i starts at 1. -/
def captureLoop (cam : CameraState)
    (barcode_data save_name file_path description : String) :
    List CandidateEnv → Nat → Option CapResult → Nat → List CaptureRecord →
    Nat → CapOut
  | [], _, best, _, records, att =>
    match best with
    | some r => ⟨r, records, att⟩
    | none => ⟨.failure "所有RTSP URL抓图都失败", records, att⟩
  | c :: rest, i, best, maxSize, records, att =>
    let pr := capture_single_rtsp cam c barcode_data save_name file_path
      description i records
    match pr.1 with
    | .success d =>
      let best2 := if maxSize < d.file_size then some (CapResult.success d) else best
      let maxSize2 := if maxSize < d.file_size then d.file_size else maxSize
      if 200 * 1024 < d.file_size then ⟨.success d, pr.2, att + 1⟩
      else captureLoop cam barcode_data save_name file_path description rest
        (i + 1) best2 maxSize2 pr.2 (att + 1)
    | .failure _ =>
      captureLoop cam barcode_data save_name file_path description rest
        (i + 1) best maxSize pr.2 (att + 1)

/-- Embedding of capture_with_opencv (lines 61-128): trim the barcode,
fail fast on an empty barcode, a disconnected camera or a missing OpenCV
import, build the timestamped filename, then run the candidate loop over
the four stream locations. -/
def capture_with_opencv (cam : CameraState) (env : CaptureEnv)
    (barcode_data description : String) (records : List CaptureRecord) : CapOut :=
  let barcode := pyStrip barcode_data
  if barcode = "" then ⟨.failure "条码数据为空", records, 0⟩
  else if cam.is_connected = false then ⟨.failure "摄像头未连接", records, 0⟩
  else if cam.has_cv2 = false then ⟨.failure "OpenCV未安装", records, 0⟩
  else
    let timestamp := strftime_ms env.now_sec env.now_micros
    let filename := capture_filename barcode timestamp
    let path := cam.save_dir ++ "/" ++ filename
    captureLoop cam barcode filename path description env.candidates 1 none 0
      records 0

/-- State of the capture_records.json file as seen by
get_capture_history: missing, unreadable (corrupt JSON, or content on
which the list operations raise, caught at lines 316-318), or a parsed
array of records. -/
inductive HistoryFile where
  | missing
  | unreadable
  | parsed (records : List CaptureRecord)
deriving DecidableEq

/-- Python list slicing l[:n] for an int n: a nonnegative n takes the
first n elements, a negative n drops the last -n elements. -/
def pySliceTo (l : List CaptureRecord) (n : Int) : List CaptureRecord :=
  if 0 ≤ n then l.take n.toNat else l.take ((l.length + n).toNat)

/-- Descending timestamp order used by get_capture_history. -/
def tsGE (a b : CaptureRecord) : Prop := b.timestamp ≤ a.timestamp

instance : DecidableRel tsGE := fun a b => by
  unfold tsGE; infer_instance

/-- Embedding of get_capture_history (lines 303-318): a missing or
unreadable file yields the empty list; otherwise the records are sorted
by the timestamp string, descending (Python list.sort with reverse=True
is a stable sort, realised here by the stable insertionSort), and the
slice records[:limit] is returned. -/
def get_capture_history (file : HistoryFile) (limit : Int) : List CaptureRecord :=
  match file with
  | .missing => []
  | .unreadable => []
  | .parsed records => pySliceTo (records.insertionSort tsGE) limit

/-- The record appended by a successful attempt of one candidate (the
history array grows by exactly this record at line 296). -/
def attempt_record (cam : CameraState) (c : CandidateEnv)
    (barcode_data save_name file_path description : String) (method_num : Nat) :
    CaptureRecord :=
  (save_capture_info cam barcode_data save_name file_path c.save_ts description
    ("opencv_rtsp_" ++ toString method_num) c.capture_time c.file_size []).1

/-- Whether a candidate attempt succeeds with a file size above the 200KB
early-return threshold of line 114. -/
def bigSucc (c : CandidateEnv) : Bool :=
  attempt_succeeds c && decide (200 * 1024 < c.file_size)

/- Concrete fixtures used by witnesses and counterexamples. -/

/-- A frame whose Laplacian response has variance 4. -/
def frame4 : FrameData := ⟨[2, -2], false⟩

/-- A frame whose Laplacian response has variance 1. -/
def frame1 : FrameData := ⟨[1, -1], false⟩

/-- A candidate whose stream opens, yields one good frame, and whose saved
file has the given size. -/
def cGood (sz : Nat) : CandidateEnv := ⟨none, true, [some frame4], true, sz, "ts", "ct"⟩

/-- A candidate whose stream does not open. -/
def cClosed : CandidateEnv := ⟨none, false, [], true, 0, "ts", "ct"⟩

/-- A candidate whose attempt raises an exception. -/
def cExn : CandidateEnv := ⟨some "boom", true, [some frame4], true, 300000, "ts", "ct"⟩

/-- A connected camera state. -/
def camYes : CameraState := ⟨"1.2.3.4", "admin", "pw", "captured_images", true, true⟩

/-- A camera state whose connection check did not succeed. -/
def camNo : CameraState := ⟨"1.2.3.4", "admin", "pw", "captured_images", false, true⟩

/-- A call environment with two equally sized small successful candidates. -/
def envTwo : CaptureEnv := ⟨"20260101_120000", 123456, [cGood 102400, cGood 102400]⟩

/-- A call environment with two successful candidates of file size zero. -/
def envZero : CaptureEnv := ⟨"20260101_120000", 123456, [cGood 0, cGood 0]⟩

/-- A call environment whose first candidate exceeds the 200KB threshold. -/
def envBig : CaptureEnv := ⟨"20260101_120000", 123456, [cGood 250000, cGood 102400]⟩

/-- A call environment where every candidate fails (an exception and a
stream that does not open). -/
def envFail : CaptureEnv := ⟨"20260101_120000", 123456, [cExn, cClosed]⟩

/-- A history record with the given timestamp and empty other fields. -/
def recTs (ts : String) : CaptureRecord := ⟨"", "", "", ts, "", "", "", "", 0, 0, ""⟩

/-! Section: Helper lemmas -/

theorem string_data_inj {s t : String} (h : s.data = t.data) : s = t := by
  cases s
  cases t
  exact congrArg String.mk h

theorem npvar_nonneg (xs : List ℚ) : 0 ≤ npvar xs := by
  unfold npvar
  apply div_nonneg
  · apply List.sum_nonneg
    intro x hx
    simp only [List.mem_map] at hx
    obtain ⟨y, -, rfl⟩ := hx
    positivity
  · positivity

/-! Section: Claim C3: quality levels -/

/-- Claim C3 as stated is wrong at the threshold boundaries: the source
uses strict comparisons, so a file of exactly 500KB is classified as the
hd label, not the ultra-hd label the claim assigns to every n with
500KB less-or-equal n. -/
theorem C3_counterexample :
    500 * 1024 ≤ 512000 ∧
    get_quality_level 512000 = "高清" ∧ "高清" ≠ "超高清" := by
  refine ⟨by decide, by decide, by decide⟩

/-- Claim C3 (corrected): the quality label of _get_quality_level is
determined by strict thresholds on the encoded file size n: the ultra-hd
label for n above 500KB, hd for 200KB exclusive to 500KB inclusive,
standard for 100KB exclusive to 200KB inclusive, normal for 50KB
exclusive to 100KB inclusive, and low for n up to and including 50KB.
Each exact boundary value falls in the lower class. -/
theorem C3_quality_levels (n : Nat) :
    (get_quality_level n = "超高清" ↔ 500 * 1024 < n) ∧
    (get_quality_level n = "高清" ↔ 200 * 1024 < n ∧ n ≤ 500 * 1024) ∧
    (get_quality_level n = "标清" ↔ 100 * 1024 < n ∧ n ≤ 200 * 1024) ∧
    (get_quality_level n = "普通" ↔ 50 * 1024 < n ∧ n ≤ 100 * 1024) ∧
    (get_quality_level n = "低质量" ↔ n ≤ 50 * 1024) := by
  unfold get_quality_level
  split_ifs <;> refine ⟨?_, ?_, ?_, ?_, ?_⟩ <;> simp_all <;> omega

/-- Witness: the corrected C3 theorem evaluated at the 500KB boundary. -/
theorem C3_witness : get_quality_level (500 * 1024) = "高清" :=
  (C3_quality_levels (500 * 1024)).2.1.mpr ⟨by decide, by decide⟩

/-! Section: Claim C10: sharpness scoring is total and nonnegative -/

/-- Claim C10: the sharpness score is total (a Lean function by
construction), nonnegative (a variance of rationals), and any exception
inside scoring is caught and mapped to 0, so scoring never propagates an
exception into the capture loop. -/
theorem C10_quality_nonneg (f : FrameData) :
    0 ≤ calculate_frame_quality f ∧
    (f.scoreExn = true → calculate_frame_quality f = 0) := by
  unfold calculate_frame_quality
  cases h : f.scoreExn with
  | true => simp
  | false => simpa using npvar_nonneg f.lap

/-- Witness: the scoring function at a frame whose scoring raised. -/
theorem C10_witness : calculate_frame_quality ⟨[5], true⟩ = 0 :=
  (C10_quality_nonneg ⟨[5], true⟩).2 rfl

/-! Section: Claim C2: filename uniqueness -/

/-- Claim C2 as stated is wrong: two capture calls for the same barcode
at distinct instants 123456 and 123999 microseconds into the same second
fall in the same millisecond window, and the millisecond-truncated
timestamps coincide, so the generated filenames are identical and the
second capture silently overwrites the first image (lines 199-201 unlink
the existing file and rename over it). -/
theorem C2_counterexample :
    (123456 : Nat) ≠ 123999 ∧
    capture_filename "ABC" (strftime_ms "20260101_120000" 123456) =
      capture_filename "ABC" (strftime_ms "20260101_120000" 123999) := by
  refine ⟨by decide, ?_⟩
  rw [show strftime_ms "20260101_120000" 123456 = "20260101_120000_123" from rfl,
    show strftime_ms "20260101_120000" 123999 = "20260101_120000_123" from rfl]

/-- Claim C2 (corrected): for a fixed barcode the generated filename is
injective in the millisecond-resolution timestamp string, so two capture
calls produce distinct filenames whenever their truncated timestamps
differ; two calls inside the same millisecond produce the identical
filename and the later call overwrites the image of the earlier one. -/
theorem C2_filename_injective (b ts1 ts2 : String) (h : ts1 ≠ ts2) :
    capture_filename b ts1 ≠ capture_filename b ts2 := by
  intro heq
  apply h
  unfold capture_filename at heq
  have hdata := congrArg String.data heq
  simp only [String.data_append, List.append_assoc] at hdata
  have h1 := List.append_cancel_left hdata
  have h2 := List.append_cancel_left h1
  have h3 := List.append_cancel_left h2
  have h4 := List.append_cancel_right h3
  exact string_data_inj h4

/-- Witness: two distinct millisecond timestamps give distinct filenames. -/
theorem C2_witness :
    capture_filename "ABC" "20260101_120000_123" ≠
      capture_filename "ABC" "20260101_120000_124" :=
  C2_filename_injective "ABC" _ _ (by decide)

/-! Section: Claim C6: fail fast with no mutation -/

/-- Claim C6: a capture call whose barcode is empty after trimming, or
made while the connection check has not reported success, returns a
failure before any stream attempt (attempted = 0, and stream opening and
image writing happen only inside attempts), and leaves the history
unchanged. -/
theorem C6_fail_fast (cam : CameraState) (env : CaptureEnv) (b d : String)
    (records : List CaptureRecord)
    (h : pyStrip b = "" ∨ cam.is_connected = false) :
    (∃ m, (capture_with_opencv cam env b d records).result = .failure m) ∧
    (capture_with_opencv cam env b d records).records = records ∧
    (capture_with_opencv cam env b d records).attempted = 0 := by
  unfold capture_with_opencv
  rcases h with h | h
  · simp [h]
  · by_cases hb : pyStrip b = "" <;> simp [h, hb]

/-- Witness: a disconnected camera yields a failure with no mutation. -/
theorem C6_witness :
    (∃ m, (capture_with_opencv camNo envTwo "X" "d" [recTs "1"]).result = .failure m) ∧
    (capture_with_opencv camNo envTwo "X" "d" [recTs "1"]).records = [recTs "1"] ∧
    (capture_with_opencv camNo envTwo "X" "d" [recTs "1"]).attempted = 0 :=
  C6_fail_fast camNo envTwo "X" "d" [recTs "1"] (Or.inr rfl)

/-! Section: Claim C7: history listing -/

instance : IsTotal CaptureRecord tsGE :=
  ⟨fun a b => le_total b.timestamp a.timestamp⟩

instance : IsTrans CaptureRecord tsGE :=
  ⟨fun _ _ _ hab hbc => le_trans hbc hab⟩

/-- Claim C7 as stated is wrong for negative limits: Python slicing
records[:limit] with limit = -1 drops only the last element, so a
two-record history returns one record, which is not at most -1 records. -/
theorem C7_counterexample :
    (get_capture_history (.parsed [recTs "1", recTs "2"]) (-1)).length = 1 ∧
    ¬(((get_capture_history (.parsed [recTs "1", recTs "2"]) (-1)).length : Int) ≤ -1) := by
  have h1 : (([recTs "1", recTs "2"] : List CaptureRecord).insertionSort tsGE).length = 2 := by
    rw [List.length_insertionSort]
    rfl
  have hlen : (get_capture_history (.parsed [recTs "1", recTs "2"]) (-1)).length = 1 := by
    show (pySliceTo (([recTs "1", recTs "2"] : List CaptureRecord).insertionSort tsGE) (-1)).length = 1
    unfold pySliceTo
    rw [if_neg (by decide), List.length_take, h1]
    decide
  exact ⟨hlen, by rw [hlen]; decide⟩

/-- Claim C7 (corrected): for every nonnegative limit the history listing
returns at most limit records; for every limit the result is sorted
descending by the timestamp string; and a missing or unparsable history
file yields the empty list rather than an error. (For negative limits the
Python slice drops trailing records instead of bounding the count.) -/
theorem C7_list_sorted_limited (file : HistoryFile) (limit : Int) :
    (0 ≤ limit → ((get_capture_history file limit).length : Int) ≤ limit) ∧
    List.Pairwise tsGE (get_capture_history file limit) ∧
    (file = .missing ∨ file = .unreadable → get_capture_history file limit = []) := by
  refine ⟨?_, ?_, ?_⟩
  · intro hl
    cases file with
    | missing => simpa using hl
    | unreadable => simpa using hl
    | parsed rs =>
      simp only [get_capture_history, pySliceTo, if_pos hl]
      have hlen : (List.take limit.toNat (rs.insertionSort tsGE)).length ≤ limit.toNat := by
        simp [List.length_take]
      calc ((List.take limit.toNat (rs.insertionSort tsGE)).length : Int)
          ≤ (limit.toNat : Int) := by exact_mod_cast hlen
        _ = limit := Int.toNat_of_nonneg hl
  · cases file with
    | missing => simp [get_capture_history]
    | unreadable => simp [get_capture_history]
    | parsed rs =>
      have hs : List.Pairwise tsGE (rs.insertionSort tsGE) :=
        List.sorted_insertionSort tsGE rs
      unfold get_capture_history pySliceTo
      split_ifs <;> exact List.Pairwise.sublist (List.take_sublist _ _) hs
  · intro h
    rcases h with rfl | rfl <;> rfl

/-- Witness: the corrected C7 theorem at a concrete history and limit. -/
theorem C7_witness :
    ((get_capture_history (.parsed [recTs "1", recTs "2"]) 1).length : Int) ≤ 1 ∧
    get_capture_history .missing 5 = [] :=
  ⟨(C7_list_sorted_limited (.parsed [recTs "1", recTs "2"]) 1).1 (by decide),
   (C7_list_sorted_limited .missing 5).2.2 (Or.inl rfl)⟩

/-! Section: Claim C8: the best-scoring frame is saved -/

theorem frameLoop_max (reads : List (Option FrameData)) :
    ∀ (frames0 : Nat) (maxq : ℚ) (best : Option (Nat × ℚ)) (frames i : Nat) (q : ℚ),
    (∀ p : Nat × ℚ, best = some p → p.2 = maxq) →
    frameLoop reads frames0 maxq best = (frames, some (i, q)) →
    frames0 ≤ frames ∧ maxq ≤ q ∧
    (∀ j f, j < frames - frames0 → reads[j]? = some (some f) →
      calculate_frame_quality f ≤ q) ∧
    (best = some (i, q) ∨
      ∃ j f, j < frames - frames0 ∧ reads[j]? = some (some f) ∧
        calculate_frame_quality f = q) := by
  induction reads with
  | nil =>
    intro frames0 maxq best frames i q hinv hrun
    simp only [frameLoop] at hrun
    injection hrun with h1 h2
    subst h1
    have hq := hinv (i, q) h2
    simp only at hq
    exact ⟨le_refl _, le_of_eq hq.symm, fun j f hj _ => absurd hj (by omega),
      Or.inl h2⟩
  | cons head rest ih =>
    intro frames0 maxq best frames i q hinv hrun
    cases head with
    | none =>
      simp only [frameLoop] at hrun
      injection hrun with h1 h2
      subst h1
      have hq := hinv (i, q) h2
      simp only at hq
      exact ⟨le_refl _, le_of_eq hq.symm, fun j f hj _ => absurd hj (by omega),
        Or.inl h2⟩
    | some f =>
      simp only [frameLoop] at hrun
      by_cases hlt : maxq < calculate_frame_quality f
      · rw [if_pos hlt, if_pos hlt] at hrun
        by_cases hex : 10 ≤ frames0 + 1 ∧ 100 < calculate_frame_quality f
        · rw [if_pos hex] at hrun
          injection hrun with h1 h2
          subst h1
          injection h2 with h2
          injection h2 with h3 h4
          refine ⟨by omega, le_of_lt (h4 ▸ hlt), ?_,
            Or.inr ⟨0, f, by omega, by simp, h4⟩⟩
          intro j g hj hg
          have hj0 : j = 0 := by omega
          subst hj0
          simp only [List.getElem?_cons_zero, Option.some.injEq] at hg
          exact le_of_eq (hg ▸ h4)
        · rw [if_neg hex] at hrun
          obtain ⟨ha, hb, hc, hd⟩ := ih (frames0 + 1) (calculate_frame_quality f)
            (some (frames0 + 1, calculate_frame_quality f)) frames i q
            (by intro p hp; cases hp; rfl) hrun
          refine ⟨by omega, le_trans (le_of_lt hlt) hb, ?_, ?_⟩
          · intro j g hj hg
            match j with
            | 0 =>
              simp only [List.getElem?_cons_zero, Option.some.injEq] at hg
              exact hg ▸ hb
            | j' + 1 =>
              simp only [List.getElem?_cons_succ] at hg
              exact hc j' g (by omega) hg
          · rcases hd with hd | ⟨j', g, hj', hg', hq'⟩
            · injection hd with hd
              injection hd with h3 h4
              exact Or.inr ⟨0, f, by omega, by simp, h4⟩
            · exact Or.inr ⟨j' + 1, g, by omega, by simpa using hg', hq'⟩
      · rw [if_neg hlt, if_neg hlt] at hrun
        by_cases hex : 10 ≤ frames0 + 1 ∧ 100 < maxq
        · rw [if_pos hex] at hrun
          injection hrun with h1 h2
          subst h1
          have hq := hinv (i, q) h2
          simp only at hq
          refine ⟨by omega, le_of_eq hq.symm, ?_, Or.inl h2⟩
          intro j g hj hg
          have hj0 : j = 0 := by omega
          subst hj0
          simp only [List.getElem?_cons_zero, Option.some.injEq] at hg
          exact hg ▸ ((le_of_not_lt hlt).trans (le_of_eq hq.symm))
        · rw [if_neg hex] at hrun
          obtain ⟨ha, hb, hc, hd⟩ := ih (frames0 + 1) maxq best frames i q hinv hrun
          refine ⟨by omega, hb, ?_, ?_⟩
          · intro j g hj hg
            match j with
            | 0 =>
              simp only [List.getElem?_cons_zero, Option.some.injEq] at hg
              exact hg ▸ le_trans (le_of_not_lt hlt) hb
            | j' + 1 =>
              simp only [List.getElem?_cons_succ] at hg
              exact hc j' g (by omega) hg
          · rcases hd with hd | ⟨j', g, hj', hg', hq'⟩
            · exact Or.inl hd
            · exact Or.inr ⟨j' + 1, g, by omega, by simpa using hg', hq'⟩

/-- Claim C8: when the acquisition loop of one candidate ends with a best
frame (the frame _capture_single_rtsp then encodes and saves), that frame
attains its sharpness score as the maximum over all frames read in the
loop; no read frame scores strictly higher than the saved one. -/
theorem C8_best_frame (reads : List (Option FrameData)) (frames i : Nat) (q : ℚ)
    (h : frameLoop reads 0 0 none = (frames, some (i, q))) :
    (∃ j f, j < frames ∧ reads[j]? = some (some f) ∧
      calculate_frame_quality f = q) ∧
    (∀ j f, j < frames → reads[j]? = some (some f) →
      calculate_frame_quality f ≤ q) := by
  obtain ⟨-, -, hc, hd⟩ := frameLoop_max reads 0 0 none frames i q
    (by intro p hp; cases hp) h
  constructor
  · rcases hd with hd | ⟨j, f, h1, h2, h3⟩
    · exact absurd hd (by simp)
    · exact ⟨j, f, by omega, h2, h3⟩
  · intro j f hj hf
    exact hc j f (by omega) hf

/-- Witness: a two-frame stream with scores 4 then 1; the saved frame is
the first, with the maximal score 4. -/
theorem C8_witness :
    (∃ j f, j < 2 ∧ [some frame4, some frame1][j]? = some (some f) ∧
      calculate_frame_quality f = 4) ∧
    (∀ j f, j < 2 → [some frame4, some frame1][j]? = some (some f) →
      calculate_frame_quality f ≤ 4) :=
  C8_best_frame [some frame4, some frame1] 2 1 4 (by
    norm_num [frameLoop, calculate_frame_quality, npvar, npmean, frame4, frame1])

/-! Section: Lemmas about one candidate attempt -/

theorem single_fail (cam : CameraState) (c : CandidateEnv) (b s p d : String)
    (i : Nat) (records : List CaptureRecord) (h : attempt_succeeds c = false) :
    ∃ m, capture_single_rtsp cam c b s p d i records = (.failure m, records) := by
  unfold capture_single_rtsp
  unfold attempt_succeeds at h
  cases hexn : c.exn with
  | some e => exact ⟨_, rfl⟩
  | none =>
    cases hop : c.opens with
    | false => exact ⟨"无法打开RTSP连接", by simp [hexn, hop]⟩
    | true =>
      rcases hfl : frameLoop c.reads 0 0 none with ⟨fr, ob⟩
      cases ob with
      | none => exact ⟨"未捕获到有效帧", by simp [hexn, hop, hfl]⟩
      | some pb =>
        have hw : c.writeOk = false := by
          rw [hexn, hop, hfl] at h
          simpa using h
        exact ⟨"图片保存失败", by simp [hexn, hop, hfl, hw]⟩

theorem single_succ (cam : CameraState) (c : CandidateEnv) (b s p d : String)
    (i : Nat) (records : List CaptureRecord) (h : attempt_succeeds c = true) :
    capture_single_rtsp cam c b s p d i records =
      (candidate_success_result cam c b s p d i,
       records ++ [attempt_record cam c b s p d i]) := by
  unfold attempt_succeeds at h
  simp only [Bool.and_eq_true, Option.isNone_iff_eq_none] at h
  obtain ⟨⟨⟨hexn, hop⟩, hsome⟩, hw⟩ := h
  rcases hfl : frameLoop c.reads 0 0 none with ⟨fr, ob⟩
  rw [hfl] at hsome
  cases ob with
  | none => simp at hsome
  | some pb =>
    unfold capture_single_rtsp
    simp only [hexn, hop, hfl, hw, if_true]
    unfold save_capture_info attempt_record save_capture_info
    simp

theorem single_isSuccess (cam : CameraState) (c : CandidateEnv) (b s p d : String)
    (i : Nat) (records : List CaptureRecord) :
    (capture_single_rtsp cam c b s p d i records).1.isSuccess = attempt_succeeds c := by
  cases hs : attempt_succeeds c with
  | true => rw [single_succ cam c b s p d i records hs]; rfl
  | false =>
    obtain ⟨m, hm⟩ := single_fail cam c b s p d i records hs
    rw [hm]
    rfl

theorem success_data_file_size (cam : CameraState) (c : CandidateEnv)
    (b s p d : String) (i : Nat) :
    (success_data cam c b s p d i).file_size = c.file_size := rfl

/-! Section: Lemmas about the candidate loop -/

theorem capture_unfold (cam : CameraState) (env : CaptureEnv) (b d : String)
    (records : List CaptureRecord) (hb : ¬ pyStrip b = "")
    (hc : cam.is_connected = true) (hcv : cam.has_cv2 = true) :
    capture_with_opencv cam env b d records =
      captureLoop cam (pyStrip b)
        (capture_filename (pyStrip b) (strftime_ms env.now_sec env.now_micros))
        (cam.save_dir ++ "/" ++
          capture_filename (pyStrip b) (strftime_ms env.now_sec env.now_micros))
        d env.candidates 1 none 0 records 0 := by
  unfold capture_with_opencv
  simp [hb, hc, hcv]

theorem loop_att_le (cam : CameraState) (b s p d : String)
    (cands : List CandidateEnv) :
    ∀ (i : Nat) (best : Option CapResult) (maxSize : Nat)
      (records : List CaptureRecord) (att : Nat),
    (captureLoop cam b s p d cands i best maxSize records att).attempted ≤
      att + cands.length := by
  induction cands with
  | nil =>
    intro i best maxSize records att
    simp only [captureLoop]
    cases best <;> simp
  | cons c rest ih =>
    intro i best maxSize records att
    simp only [captureLoop]
    rcases hres : (capture_single_rtsp cam c b s p d i records).1 with m | dd
    · simp only [hres]
      have := ih (i + 1) best maxSize (capture_single_rtsp cam c b s p d i records).2 (att + 1)
      simp only [List.length_cons]
      omega
    · simp only [hres]
      by_cases hbig : 200 * 1024 < dd.file_size
      · rw [if_pos hbig]
        simp only [List.length_cons]
        omega
      · rw [if_neg hbig]
        have := ih (i + 1) (if maxSize < dd.file_size then some (CapResult.success dd) else best)
          (if maxSize < dd.file_size then dd.file_size else maxSize)
          (capture_single_rtsp cam c b s p d i records).2 (att + 1)
        simp only [List.length_cons]
        omega

theorem loop_all_fail (cam : CameraState) (b s p d : String)
    (cands : List CandidateEnv) :
    ∀ (i : Nat) (records : List CaptureRecord) (att : Nat),
    (∀ (k : Nat) (c : CandidateEnv), cands[k]? = some c → attempt_succeeds c = false) →
    captureLoop cam b s p d cands i none 0 records att =
      ⟨.failure "所有RTSP URL抓图都失败", records, att + cands.length⟩ := by
  induction cands with
  | nil =>
    intro i records att _
    simp [captureLoop]
  | cons c rest ih =>
    intro i records att hall
    have hc0 : attempt_succeeds c = false := hall 0 c (by simp)
    obtain ⟨m, hm⟩ := single_fail cam c b s p d i records hc0
    simp only [captureLoop, hm]
    rw [ih (i + 1) records (att + 1) (fun k c' hk => hall (k + 1) c' (by simpa using hk))]
    have harith : att + 1 + rest.length = att + (c :: rest).length := by
      simp only [List.length_cons]
      omega
    rw [harith]

/-! Section: Claim C5: no exception escapes, aggregate failure -/

/-- Claim C5: the capture call is a total function into structured
results; an exception inside one candidate attempt is caught and turned
into that candidate failure dictionary with the history untouched; and
when every candidate fails (exceptions included) the loop runs through
all of them and returns the explicit aggregate failure with the history
unchanged. -/
theorem C5_never_raises (cam : CameraState) (env : CaptureEnv) (b d : String)
    (records : List CaptureRecord) (hb : ¬ pyStrip b = "")
    (hc : cam.is_connected = true) (hcv : cam.has_cv2 = true)
    (hall : ∀ (k : Nat) (c : CandidateEnv), env.candidates[k]? = some c →
      attempt_succeeds c = false) :
    (∀ (cam2 : CameraState) (c : CandidateEnv) (e b2 s p d2 : String) (i : Nat)
      (rs : List CaptureRecord), c.exn = some e →
      capture_single_rtsp cam2 c b2 s p d2 i rs =
        (.failure ("RTSP抓图异常: " ++ e), rs)) ∧
    capture_with_opencv cam env b d records =
      ⟨.failure "所有RTSP URL抓图都失败", records, env.candidates.length⟩ := by
  constructor
  · intro cam2 c e b2 s p d2 i rs hexn
    simp only [capture_single_rtsp, hexn]
  · rw [capture_unfold cam env b d records hb hc hcv]
    simpa using loop_all_fail cam (pyStrip b) _ _ d env.candidates 1 records 0 hall

/-- Witness: a call whose first candidate raises and whose second cannot
open its stream returns the aggregate failure after attempting both. -/
theorem C5_witness :
    capture_with_opencv camYes envFail "AB" "" [] =
      ⟨.failure "所有RTSP URL抓图都失败", [], 2⟩ :=
  (C5_never_raises camYes envFail "AB" "" [] (by decide) rfl rfl (by
    intro k c hk
    match k with
    | 0 =>
      simp only [envFail, List.getElem?_cons_zero, Option.some.injEq] at hk
      rw [← hk]
      decide
    | 1 =>
      simp only [envFail, List.getElem?_cons_succ, List.getElem?_cons_zero,
        Option.some.injEq] at hk
      rw [← hk]
      decide
    | (n + 2) =>
      simp [envFail] at hk)).2

/-! Section: Claim C1: records appended by a capture call -/

theorem attempt_record_barcode (cam : CameraState) (c : CandidateEnv)
    (b s p d : String) (i : Nat) : (attempt_record cam c b s p d i).barcode = b := rfl

theorem loop_records (cam : CameraState) (b s p d : String)
    (cands : List CandidateEnv) :
    ∀ (i : Nat) (best : Option CapResult) (maxSize : Nat)
      (records : List CaptureRecord) (att : Nat),
    ∃ fresh : List CaptureRecord,
      (captureLoop cam b s p d cands i best maxSize records att).records =
        records ++ fresh ∧
      (∀ r ∈ fresh, r.barcode = b) ∧
      fresh.length =
        ((cands.take
          ((captureLoop cam b s p d cands i best maxSize records att).attempted - att)).countP
            attempt_succeeds) ∧
      att ≤ (captureLoop cam b s p d cands i best maxSize records att).attempted ∧
      ((captureLoop cam b s p d cands i best maxSize records att).result.isSuccess = true →
        best.isSome = true ∨ 1 ≤ fresh.length) := by
  induction cands with
  | nil =>
    intro i best maxSize records att
    simp only [captureLoop]
    cases best with
    | some r =>
      exact ⟨[], by simp, by simp, by simp, le_refl _, fun _ => Or.inl rfl⟩
    | none =>
      refine ⟨[], by simp, by simp, by simp, le_refl _, fun h => ?_⟩
      simp [CapResult.isSuccess] at h
  | cons c rest ih =>
    intro i best maxSize records att
    cases hs : attempt_succeeds c with
    | false =>
      obtain ⟨m, hm⟩ := single_fail cam c b s p d i records hs
      simp only [captureLoop, hm]
      obtain ⟨fresh, h1, h2, h3, h4, h5⟩ := ih (i + 1) best maxSize records (att + 1)
      refine ⟨fresh, h1, h2, ?_, by omega, h5⟩
      have harith :
          (captureLoop cam b s p d rest (i + 1) best maxSize records (att + 1)).attempted - att =
          ((captureLoop cam b s p d rest (i + 1) best maxSize records (att + 1)).attempted -
            (att + 1)) + 1 := by omega
      rw [harith, List.take_succ_cons, List.countP_cons]
      simp [hs, h3]
    | true =>
      rw [show (captureLoop cam b s p d (c :: rest) i best maxSize records att) =
        (match (capture_single_rtsp cam c b s p d i records).1 with
          | .success dd =>
            if 200 * 1024 < dd.file_size then
              ⟨.success dd, (capture_single_rtsp cam c b s p d i records).2, att + 1⟩
            else captureLoop cam b s p d rest (i + 1)
              (if maxSize < dd.file_size then some (CapResult.success dd) else best)
              (if maxSize < dd.file_size then dd.file_size else maxSize)
              (capture_single_rtsp cam c b s p d i records).2 (att + 1)
          | .failure _ => captureLoop cam b s p d rest (i + 1) best maxSize
              (capture_single_rtsp cam c b s p d i records).2 (att + 1)) from rfl]
      rw [single_succ cam c b s p d i records hs]
      simp only [candidate_success_result]
      by_cases hbig : 200 * 1024 < (success_data cam c b s p d i).file_size
      · rw [if_pos hbig]
        refine ⟨[attempt_record cam c b s p d i], rfl, ?_, ?_, Nat.le_succ att,
          fun _ => Or.inr (by simp)⟩
        · intro r hr
          simp only [List.mem_singleton] at hr
          rw [hr]
          rfl
        · simp [hs]
      · rw [if_neg hbig]
        obtain ⟨fresh, h1, h2, h3, h4, h5⟩ := ih (i + 1)
          (if maxSize < (success_data cam c b s p d i).file_size then
            some (CapResult.success (success_data cam c b s p d i)) else best)
          (if maxSize < (success_data cam c b s p d i).file_size then
            (success_data cam c b s p d i).file_size else maxSize)
          (records ++ [attempt_record cam c b s p d i]) (att + 1)
        refine ⟨attempt_record cam c b s p d i :: fresh, ?_, ?_, ?_, by omega,
          fun _ => Or.inr (by simp)⟩
        · rw [h1, List.append_assoc]
          rfl
        · intro r hr
          rcases List.mem_cons.mp hr with hr | hr
          · rw [hr]; rfl
          · exact h2 r hr
        · set A := (captureLoop cam b s p d rest (i + 1)
            (if maxSize < (success_data cam c b s p d i).file_size then
              some (CapResult.success (success_data cam c b s p d i)) else best)
            (if maxSize < (success_data cam c b s p d i).file_size then
              (success_data cam c b s p d i).file_size else maxSize)
            (records ++ [attempt_record cam c b s p d i]) (att + 1)).attempted with hA
          have harith : A - att = (A - (att + 1)) + 1 := by omega
          rw [harith, List.take_succ_cons, List.countP_cons]
          simp only [List.length_cons, hs, if_pos]
          omega

/-- Claim C1 as stated is wrong when several candidates each produce a
successful save: each successful attempt appends its own record (line
204 runs inside every successful _capture_single_rtsp call), so a
connected camera whose first two stream locations both save a 100KB
image appends two records to the history in one successful capture call. -/
theorem C1_counterexample :
    (capture_with_opencv camYes envTwo " X " "d" []).result.isSuccess = true ∧
    (capture_with_opencv camYes envTwo " X " "d" []).records.length = 2 := by
  constructor <;>
    norm_num [capture_with_opencv, captureLoop, capture_single_rtsp,
      candidate_success_result, success_data, save_capture_info, frameLoop,
      calculate_frame_quality, npvar, npmean, camYes, envTwo, cGood, frame4,
      CapResult.isSuccess, show pyStrip " X " = "X" from rfl,
      show ¬(("X" : String) = "") from by decide]

/-- Claim C1 (corrected): a capture call appends one history record per
successful candidate save, each with barcode equal to the trimmed input;
a call that returns success appends at least one record (exactly one when
exactly one candidate attempt succeeds, as with an early high-quality
return on the first candidate). -/
theorem C1_records_appended (cam : CameraState) (env : CaptureEnv) (b d : String)
    (records : List CaptureRecord) :
    ∃ fresh : List CaptureRecord,
      (capture_with_opencv cam env b d records).records = records ++ fresh ∧
      (∀ r ∈ fresh, r.barcode = pyStrip b) ∧
      fresh.length = ((env.candidates.take
        (capture_with_opencv cam env b d records).attempted).countP attempt_succeeds) ∧
      ((capture_with_opencv cam env b d records).result.isSuccess = true →
        1 ≤ fresh.length) := by
  by_cases hb : pyStrip b = ""
  · refine ⟨[], by simp [capture_with_opencv, hb], by simp, ?_, ?_⟩
    · simp [capture_with_opencv, hb]
    · simp [capture_with_opencv, hb, CapResult.isSuccess]
  · cases hcon : cam.is_connected with
    | false =>
      refine ⟨[], by simp [capture_with_opencv, hb, hcon], by simp, ?_, ?_⟩
      · simp [capture_with_opencv, hb, hcon]
      · simp [capture_with_opencv, hb, hcon, CapResult.isSuccess]
    | true =>
      cases hcv : cam.has_cv2 with
      | false =>
        refine ⟨[], by simp [capture_with_opencv, hb, hcon, hcv], by simp, ?_, ?_⟩
        · simp [capture_with_opencv, hb, hcon, hcv]
        · simp [capture_with_opencv, hb, hcon, hcv, CapResult.isSuccess]
      | true =>
        rw [capture_unfold cam env b d records hb hcon hcv]
        obtain ⟨fresh, h1, h2, h3, h4, h5⟩ := loop_records cam (pyStrip b)
          (capture_filename (pyStrip b) (strftime_ms env.now_sec env.now_micros))
          (cam.save_dir ++ "/" ++
            capture_filename (pyStrip b) (strftime_ms env.now_sec env.now_micros))
          d env.candidates 1 none 0 records 0
        refine ⟨fresh, h1, h2, by simpa using h3, fun hsuc => ?_⟩
        rcases h5 hsuc with h | h
        · simp at h
        · exact h

/-! Section: Claim C4: early return on a high-quality image -/

theorem captureLoop_cons (cam : CameraState) (b s p d : String)
    (c : CandidateEnv) (rest : List CandidateEnv) (i : Nat)
    (best : Option CapResult) (maxSize : Nat) (records : List CaptureRecord)
    (att : Nat) :
    captureLoop cam b s p d (c :: rest) i best maxSize records att =
      (match (capture_single_rtsp cam c b s p d i records).1 with
        | .success dd =>
          if 200 * 1024 < dd.file_size then
            ⟨.success dd, (capture_single_rtsp cam c b s p d i records).2, att + 1⟩
          else captureLoop cam b s p d rest (i + 1)
            (if maxSize < dd.file_size then some (CapResult.success dd) else best)
            (if maxSize < dd.file_size then dd.file_size else maxSize)
            (capture_single_rtsp cam c b s p d i records).2 (att + 1)
        | .failure _ => captureLoop cam b s p d rest (i + 1) best maxSize
            (capture_single_rtsp cam c b s p d i records).2 (att + 1)) := rfl

theorem loop_first_big (cam : CameraState) (b s p d : String)
    (cands : List CandidateEnv) :
    ∀ (k : Nat) (c : CandidateEnv) (i : Nat) (best : Option CapResult)
      (maxSize : Nat) (records : List CaptureRecord) (att : Nat),
    cands[k]? = some c → attempt_succeeds c = true → 200 * 1024 < c.file_size →
    (∀ (j : Nat) (cj : CandidateEnv), j < k → cands[j]? = some cj →
      attempt_succeeds cj = false ∨ cj.file_size ≤ 200 * 1024) →
    (captureLoop cam b s p d cands i best maxSize records att).result =
      candidate_success_result cam c b s p d (i + k) ∧
    (captureLoop cam b s p d cands i best maxSize records att).attempted =
      att + k + 1 := by
  induction cands with
  | nil =>
    intro k c i best maxSize records att hk
    simp at hk
  | cons c0 rest ih =>
    intro k c i best maxSize records att hk hs hbig hprev
    match k with
    | 0 =>
      simp only [List.getElem?_cons_zero, Option.some.injEq] at hk
      subst hk
      simp only [captureLoop_cons, single_succ cam c0 b s p d i records hs,
        candidate_success_result]
      rw [if_pos (show 200 * 1024 < (success_data cam c0 b s p d i).file_size from by
        rw [success_data_file_size]; exact hbig)]
      exact ⟨by simp [candidate_success_result], rfl⟩
    | k' + 1 =>
      have hk' : rest[k']? = some c := by simpa using hk
      have hprev' : ∀ (j : Nat) (cj : CandidateEnv), j < k' → rest[j]? = some cj →
          attempt_succeeds cj = false ∨ cj.file_size ≤ 200 * 1024 :=
        fun j cj hj hcj => hprev (j + 1) cj (by omega) (by simpa using hcj)
      have h0 := hprev 0 c0 (by omega) (by simp)
      cases hs0 : attempt_succeeds c0 with
      | false =>
        obtain ⟨m, hm⟩ := single_fail cam c0 b s p d i records hs0
        simp only [captureLoop_cons, hm]
        obtain ⟨h1, h2⟩ := ih k' c (i + 1) best maxSize records (att + 1) hk' hs hbig hprev'
        refine ⟨?_, ?_⟩
        · rw [h1]
          congr 1
          omega
        · rw [h2]
          omega
      | true =>
        have hsmall : c0.file_size ≤ 200 * 1024 := by
          rcases h0 with h | h
          · rw [hs0] at h
            exact absurd h (by simp)
          · exact h
        simp only [captureLoop_cons, single_succ cam c0 b s p d i records hs0,
          candidate_success_result]
        rw [if_neg (show ¬ 200 * 1024 < (success_data cam c0 b s p d i).file_size from by
          rw [success_data_file_size]; omega)]
        obtain ⟨h1, h2⟩ := ih k' c (i + 1)
          (if maxSize < (success_data cam c0 b s p d i).file_size then
            some (CapResult.success (success_data cam c0 b s p d i)) else best)
          (if maxSize < (success_data cam c0 b s p d i).file_size then
            (success_data cam c0 b s p d i).file_size else maxSize)
          (records ++ [attempt_record cam c0 b s p d i]) (att + 1) hk' hs hbig hprev'
        refine ⟨?_, ?_⟩
        · rw [h1]
          congr 1
          omega
        · rw [h2]
          omega

/-- Claim C4: when candidate k is the first whose attempt succeeds with a
saved file above 200KB, the capture call returns the success result of
that candidate (method number k + 1) and attempts exactly k + 1
candidates, never any later one in the ordered list. -/
theorem C4_early_return (cam : CameraState) (env : CaptureEnv) (b d : String)
    (records : List CaptureRecord) (k : Nat) (c : CandidateEnv)
    (hb : ¬ pyStrip b = "") (hc : cam.is_connected = true)
    (hcv : cam.has_cv2 = true)
    (hk : env.candidates[k]? = some c) (hs : attempt_succeeds c = true)
    (hbig : 200 * 1024 < c.file_size)
    (hprev : ∀ (j : Nat) (cj : CandidateEnv), j < k → env.candidates[j]? = some cj →
      attempt_succeeds cj = false ∨ cj.file_size ≤ 200 * 1024) :
    (capture_with_opencv cam env b d records).result =
      candidate_success_result cam c (pyStrip b)
        (capture_filename (pyStrip b) (strftime_ms env.now_sec env.now_micros))
        (cam.save_dir ++ "/" ++
          capture_filename (pyStrip b) (strftime_ms env.now_sec env.now_micros))
        d (k + 1) ∧
    (capture_with_opencv cam env b d records).attempted = k + 1 := by
  rw [capture_unfold cam env b d records hb hc hcv]
  obtain ⟨h1, h2⟩ := loop_first_big cam (pyStrip b)
    (capture_filename (pyStrip b) (strftime_ms env.now_sec env.now_micros))
    (cam.save_dir ++ "/" ++
      capture_filename (pyStrip b) (strftime_ms env.now_sec env.now_micros))
    d env.candidates k c 1 none 0 records 0 hk hs hbig hprev
  refine ⟨?_, by rw [h2]; omega⟩
  rw [h1]
  congr 1
  omega

/-- Witness: a first candidate above 200KB is returned immediately; the
second candidate is never attempted. -/
theorem C4_witness :
    (capture_with_opencv camYes envBig "AB" "" []).result =
      candidate_success_result camYes (cGood 250000) (pyStrip "AB")
        (capture_filename (pyStrip "AB") (strftime_ms envBig.now_sec envBig.now_micros))
        (camYes.save_dir ++ "/" ++
          capture_filename (pyStrip "AB") (strftime_ms envBig.now_sec envBig.now_micros))
        "" 1 ∧
    (capture_with_opencv camYes envBig "AB" "" []).attempted = 1 :=
  C4_early_return camYes envBig "AB" "" [] 0 (cGood 250000) (by decide) rfl rfl
    rfl
    (by norm_num [attempt_succeeds, frameLoop, calculate_frame_quality, npvar,
      npmean, cGood, frame4])
    (by decide)
    (fun j cj hj _ => absurd hj (Nat.not_lt_zero j))

/-- Witness: the corrected C1 theorem at a concrete successful call. -/
theorem C1_witness :
    ∃ fresh : List CaptureRecord,
      (capture_with_opencv camYes envBig "AB" "" []).records = [] ++ fresh ∧
      (∀ r ∈ fresh, r.barcode = pyStrip "AB") ∧
      fresh.length = ((envBig.candidates.take
        (capture_with_opencv camYes envBig "AB" "" []).attempted).countP attempt_succeeds) ∧
      ((capture_with_opencv camYes envBig "AB" "" []).result.isSuccess = true →
        1 ≤ fresh.length) :=
  C1_records_appended camYes envBig "AB" "" []

/-! Section: Claim C9: best-so-far comparison is strict -/

theorem loop_no_big (cam : CameraState) (b s p d : String)
    (cands : List CandidateEnv) :
    ∀ (i : Nat) (best : Option CapResult) (maxSize : Nat)
      (records : List CaptureRecord) (att : Nat),
    (∀ (k : Nat) (ck : CandidateEnv), cands[k]? = some ck →
      attempt_succeeds ck = true → ck.file_size ≤ 200 * 1024) →
    (captureLoop cam b s p d cands i best maxSize records att).attempted =
      att + cands.length ∧
    ((∃ (m : Nat) (cm : CandidateEnv), cands[m]? = some cm ∧
        attempt_succeeds cm = true ∧ maxSize < cm.file_size ∧
        (∀ (k : Nat) (ck : CandidateEnv), k < m → cands[k]? = some ck →
          attempt_succeeds ck = true → ck.file_size < cm.file_size) ∧
        (∀ (k : Nat) (ck : CandidateEnv), cands[k]? = some ck →
          attempt_succeeds ck = true → ck.file_size ≤ cm.file_size) ∧
        (captureLoop cam b s p d cands i best maxSize records att).result =
          candidate_success_result cam cm b s p d (i + m)) ∨
      ((∀ (k : Nat) (ck : CandidateEnv), cands[k]? = some ck →
          attempt_succeeds ck = true → ck.file_size ≤ maxSize) ∧
        (captureLoop cam b s p d cands i best maxSize records att).result =
          (match best with
            | some r => r
            | none => CapResult.failure "所有RTSP URL抓图都失败"))) := by
  induction cands with
  | nil =>
    intro i best maxSize records att _
    refine ⟨by cases best <;> simp [captureLoop], Or.inr ⟨?_, ?_⟩⟩
    · intro k ck hk
      simp at hk
    · cases best <;> simp [captureLoop]
  | cons c0 rest ih =>
    intro i best maxSize records att hsmall
    have hsmall' : ∀ (k : Nat) (ck : CandidateEnv), rest[k]? = some ck →
        attempt_succeeds ck = true → ck.file_size ≤ 200 * 1024 :=
      fun k ck hk => hsmall (k + 1) ck (by simpa using hk)
    cases hs0 : attempt_succeeds c0 with
    | false =>
      obtain ⟨m, hm⟩ := single_fail cam c0 b s p d i records hs0
      simp only [captureLoop_cons, hm]
      obtain ⟨ha, hd⟩ := ih (i + 1) best maxSize records (att + 1) hsmall'
      refine ⟨by rw [ha]; simp [List.length_cons]; omega, ?_⟩
      rcases hd with ⟨m', cm, hm', hsm, hlt, hstrict, hdom, hres⟩ | ⟨hall, hres⟩
      · left
        refine ⟨m' + 1, cm, by simpa using hm', hsm, hlt, ?_, ?_, ?_⟩
        · intro k ck hklt hk hsk
          match k with
          | 0 =>
            simp only [List.getElem?_cons_zero, Option.some.injEq] at hk
            rw [← hk, hs0] at hsk
            exact absurd hsk (by simp)
          | k' + 1 =>
            exact hstrict k' ck (by omega) (by simpa using hk) hsk
        · intro k ck hk hsk
          match k with
          | 0 =>
            simp only [List.getElem?_cons_zero, Option.some.injEq] at hk
            rw [← hk, hs0] at hsk
            exact absurd hsk (by simp)
          | k' + 1 =>
            exact hdom k' ck (by simpa using hk) hsk
        · rw [hres]
          congr 1
          omega
      · right
        refine ⟨?_, hres⟩
        intro k ck hk hsk
        match k with
        | 0 =>
          simp only [List.getElem?_cons_zero, Option.some.injEq] at hk
          rw [← hk, hs0] at hsk
          exact absurd hsk (by simp)
        | k' + 1 =>
          exact hall k' ck (by simpa using hk) hsk
    | true =>
      have hsm0 : c0.file_size ≤ 200 * 1024 := hsmall 0 c0 (by simp) hs0
      simp only [captureLoop_cons, single_succ cam c0 b s p d i records hs0,
        candidate_success_result]
      rw [if_neg (show ¬ 200 * 1024 < (success_data cam c0 b s p d i).file_size from by
        rw [success_data_file_size]; omega)]
      by_cases hup : maxSize < (success_data cam c0 b s p d i).file_size
      · rw [if_pos hup, if_pos hup]
        obtain ⟨ha, hd⟩ := ih (i + 1)
          (some (CapResult.success (success_data cam c0 b s p d i)))
          ((success_data cam c0 b s p d i).file_size)
          (records ++ [attempt_record cam c0 b s p d i]) (att + 1) hsmall'
        refine ⟨by rw [ha]; simp [List.length_cons]; omega, ?_⟩
        have hup' : maxSize < c0.file_size := by
          rwa [success_data_file_size] at hup
        rcases hd with ⟨m', cm, hm', hsm, hlt, hstrict, hdom, hres⟩ | ⟨hall, hres⟩
        · have hlt' : c0.file_size < cm.file_size := by
            rwa [success_data_file_size] at hlt
          left
          refine ⟨m' + 1, cm, by simpa using hm', hsm, lt_trans hup' hlt', ?_, ?_, ?_⟩
          · intro k ck hklt hk hsk
            match k with
            | 0 =>
              simp only [List.getElem?_cons_zero, Option.some.injEq] at hk
              rw [← hk]
              exact hlt'
            | k' + 1 =>
              exact hstrict k' ck (by omega) (by simpa using hk) hsk
          · intro k ck hk hsk
            match k with
            | 0 =>
              simp only [List.getElem?_cons_zero, Option.some.injEq] at hk
              rw [← hk]
              exact le_of_lt hlt'
            | k' + 1 =>
              exact hdom k' ck (by simpa using hk) hsk
          · rw [hres]
            congr 1
            omega
        · left
          refine ⟨0, c0, by simp, hs0, hup', ?_, ?_, ?_⟩
          · intro k ck hklt _ _
            exact absurd hklt (Nat.not_lt_zero k)
          · intro k ck hk hsk
            match k with
            | 0 =>
              simp only [List.getElem?_cons_zero, Option.some.injEq] at hk
              rw [← hk]
            | k' + 1 =>
              have := hall k' ck (by simpa using hk) hsk
              rwa [success_data_file_size] at this
          · rw [hres]
            simp [candidate_success_result]
      · rw [if_neg hup, if_neg hup]
        obtain ⟨ha, hd⟩ := ih (i + 1) best maxSize
          (records ++ [attempt_record cam c0 b s p d i]) (att + 1) hsmall'
        have hle0 : c0.file_size ≤ maxSize := by
          have := not_lt.mp hup
          rwa [success_data_file_size] at this
        refine ⟨by rw [ha]; simp [List.length_cons]; omega, ?_⟩
        rcases hd with ⟨m', cm, hm', hsm, hlt, hstrict, hdom, hres⟩ | ⟨hall, hres⟩
        · left
          refine ⟨m' + 1, cm, by simpa using hm', hsm, hlt, ?_, ?_, ?_⟩
          · intro k ck hklt hk hsk
            match k with
            | 0 =>
              simp only [List.getElem?_cons_zero, Option.some.injEq] at hk
              rw [← hk]
              omega
            | k' + 1 =>
              exact hstrict k' ck (by omega) (by simpa using hk) hsk
          · intro k ck hk hsk
            match k with
            | 0 =>
              simp only [List.getElem?_cons_zero, Option.some.injEq] at hk
              rw [← hk]
              omega
            | k' + 1 =>
              exact hdom k' ck (by simpa using hk) hsk
          · rw [hres]
            congr 1
            omega
        · right
          refine ⟨?_, hres⟩
          intro k ck hk hsk
          match k with
          | 0 =>
            simp only [List.getElem?_cons_zero, Option.some.injEq] at hk
            rw [← hk]
            exact hle0
          | k' + 1 =>
            exact hall k' ck (by simpa using hk) hsk

/-- Claim C9 as stated is wrong in one corner: the best-so-far comparison
file_size greater-than max_file_size starts from max_file_size = 0, so
when every successful candidate saves a zero-byte file no best result is
ever recorded, and the call returns the aggregate failure instead of the
result of the earliest equal-maximal candidate. -/
theorem C9_counterexample :
    attempt_succeeds (cGood 0) = true ∧
    (capture_with_opencv camYes envZero "A" "" []).attempted = 2 ∧
    (capture_with_opencv camYes envZero "A" "" []).result =
      .failure "所有RTSP URL抓图都失败" := by
  refine ⟨?_, ?_, ?_⟩ <;>
    norm_num [attempt_succeeds, capture_with_opencv, captureLoop,
      capture_single_rtsp, candidate_success_result, success_data,
      save_capture_info, frameLoop, calculate_frame_quality, npvar, npmean,
      camYes, envZero, cGood, frame4,
      show ¬(("A" : String) = "") from by decide,
      show pyStrip "A" = "A" from rfl]

/-- Claim C9 (corrected): when two or more attempted candidates succeed
with equal maximal (and nonzero) file sizes, the call returns the result
of the earliest candidate attaining that size, because the best-so-far
comparison is strict and a later equal-sized result never replaces an
earlier one; if every successful size is zero, the strict comparison
against the initial 0 records no best result and the aggregate failure is
returned instead. -/
theorem C9_earliest_max (cam : CameraState) (env : CaptureEnv) (b d : String)
    (records : List CaptureRecord) (i j s : Nat) (ci cj : CandidateEnv)
    (hb : ¬ pyStrip b = "") (hc : cam.is_connected = true)
    (hcv : cam.has_cv2 = true) (hij : i < j)
    (hci : env.candidates[i]? = some ci) (hcj : env.candidates[j]? = some cj)
    (hsi : attempt_succeeds ci = true) (hsj : attempt_succeeds cj = true)
    (hfi : ci.file_size = s) (hfj : cj.file_size = s) (hpos : 0 < s)
    (hjatt : j < (capture_with_opencv cam env b d records).attempted)
    (hmax : ∀ (k : Nat) (ck : CandidateEnv),
      k < (capture_with_opencv cam env b d records).attempted →
      env.candidates[k]? = some ck → attempt_succeeds ck = true →
      ck.file_size ≤ s) :
    ∃ (m : Nat) (cm : CandidateEnv), m ≤ i ∧ env.candidates[m]? = some cm ∧
      attempt_succeeds cm = true ∧ cm.file_size = s ∧
      (∀ (k : Nat) (ck : CandidateEnv), k < m → env.candidates[k]? = some ck →
        attempt_succeeds ck = true → ck.file_size < s) ∧
      (capture_with_opencv cam env b d records).result =
        candidate_success_result cam cm (pyStrip b)
          (capture_filename (pyStrip b) (strftime_ms env.now_sec env.now_micros))
          (cam.save_dir ++ "/" ++
            capture_filename (pyStrip b) (strftime_ms env.now_sec env.now_micros))
          d (m + 1) := by
  rw [capture_unfold cam env b d records hb hc hcv] at hjatt hmax ⊢
  have hnobig : ∀ (k : Nat) (ck : CandidateEnv), env.candidates[k]? = some ck →
      attempt_succeeds ck = true → ck.file_size ≤ 200 * 1024 := by
    by_contra hcon
    push_neg at hcon
    obtain ⟨k1, ck1, hk1, hsk1, hbig1⟩ := hcon
    have hex : ∃ n, (Option.map bigSucc env.candidates[n]?).getD false = true :=
      ⟨k1, by rw [hk1]; simp [bigSucc, hsk1, hbig1]⟩
    set k0 := Nat.find hex with hk0def
    have hspec := Nat.find_spec hex
    cases hL : env.candidates[k0]? with
    | none =>
      rw [hL] at hspec
      simp at hspec
    | some ck0 =>
      rw [hL] at hspec
      simp [bigSucc] at hspec
      obtain ⟨hsk0, hbig0⟩ := hspec
      have hmin : ∀ (j2 : Nat) (cj2 : CandidateEnv), j2 < k0 →
          env.candidates[j2]? = some cj2 →
          attempt_succeeds cj2 = false ∨ cj2.file_size ≤ 200 * 1024 := by
        intro j2 cj2 hj2 hcj2
        have hnp := Nat.find_min hex hj2
        rw [hcj2] at hnp
        simp [bigSucc, not_and] at hnp
        cases hsc : attempt_succeeds cj2 with
        | false => exact Or.inl rfl
        | true => exact Or.inr (by have := hnp hsc; omega)
      obtain ⟨hres0, hatt0⟩ := loop_first_big cam (pyStrip b)
        (capture_filename (pyStrip b) (strftime_ms env.now_sec env.now_micros))
        (cam.save_dir ++ "/" ++
          capture_filename (pyStrip b) (strftime_ms env.now_sec env.now_micros))
        d env.candidates k0 ck0 1 none 0 records 0 hL hsk0 hbig0 hmin
      rw [hatt0] at hjatt hmax
      have hsz0 : ck0.file_size ≤ s := hmax k0 ck0 (by omega) hL hsk0
      have hsbig : 200 * 1024 < s := by omega
      have hj_le : j ≤ k0 := by omega
      rcases Nat.lt_or_ge j k0 with hjlt | hjge
      · have hnp := Nat.find_min hex hjlt
        rw [hcj] at hnp
        simp [bigSucc, not_and] at hnp
        have := hnp hsj
        omega
      · have hjeq : j = k0 := by omega
        have hilt : i < k0 := by omega
        have hnp := Nat.find_min hex hilt
        rw [hci] at hnp
        simp [bigSucc, not_and] at hnp
        have := hnp hsi
        omega
  obtain ⟨hatt, hd⟩ := loop_no_big cam (pyStrip b)
    (capture_filename (pyStrip b) (strftime_ms env.now_sec env.now_micros))
    (cam.save_dir ++ "/" ++
      capture_filename (pyStrip b) (strftime_ms env.now_sec env.now_micros))
    d env.candidates 1 none 0 records 0 hnobig
  rcases hd with ⟨m, cm, hm, hsm, hpos', hstrict, hdom, hres⟩ | ⟨hall, hres⟩
  · have hmlen : m < env.candidates.length := by
      by_contra hlt
      push_neg at hlt
      rw [List.getElem?_eq_none hlt] at hm
      exact absurd hm (by simp)
    have hms : cm.file_size = s := by
      have h1 : s ≤ cm.file_size := by
        have := hdom i ci hci hsi
        omega
      have h2 : cm.file_size ≤ s := hmax m cm (by omega) hm hsm
      omega
    have hmi : m ≤ i := by
      by_contra hmi
      push_neg at hmi
      have := hstrict i ci hmi hci hsi
      omega
    refine ⟨m, cm, hmi, hm, hsm, hms, ?_, ?_⟩
    · intro k ck hk hck hsck
      have := hstrict k ck hk hck hsck
      omega
    · rw [hres]
      congr 1
      omega
  · have := hall i ci hci hsi
    omega

/-- Witness: two attempted candidates with the equal maximal size 100KB;
the call returns the result of the first. -/
theorem C9_witness :
    ∃ (m : Nat) (cm : CandidateEnv), m ≤ 0 ∧ envTwo.candidates[m]? = some cm ∧
      attempt_succeeds cm = true ∧ cm.file_size = 102400 ∧
      (∀ (k : Nat) (ck : CandidateEnv), k < m → envTwo.candidates[k]? = some ck →
        attempt_succeeds ck = true → ck.file_size < 102400) ∧
      (capture_with_opencv camYes envTwo " X " "d" []).result =
        candidate_success_result camYes cm (pyStrip " X ")
          (capture_filename (pyStrip " X ") (strftime_ms envTwo.now_sec envTwo.now_micros))
          (camYes.save_dir ++ "/" ++
            capture_filename (pyStrip " X ") (strftime_ms envTwo.now_sec envTwo.now_micros))
          "d" (m + 1) := by
  refine C9_earliest_max camYes envTwo " X " "d" [] 0 1 102400 (cGood 102400)
    (cGood 102400) (by decide) rfl rfl (by omega) rfl rfl ?hs ?hs2 rfl rfl
    (by omega) ?hjatt ?hmax
  case hs =>
    norm_num [attempt_succeeds, frameLoop, calculate_frame_quality, npvar,
      npmean, cGood, frame4]
  case hs2 =>
    norm_num [attempt_succeeds, frameLoop, calculate_frame_quality, npvar,
      npmean, cGood, frame4]
  case hjatt =>
    norm_num [capture_with_opencv, captureLoop, capture_single_rtsp,
      candidate_success_result, success_data, save_capture_info, frameLoop,
      calculate_frame_quality, npvar, npmean, camYes, envTwo, cGood, frame4,
      show pyStrip " X " = "X" from rfl,
      show ¬(("X" : String) = "") from by decide]
  case hmax =>
    intro k ck _ hck _
    match k with
    | 0 =>
      simp only [envTwo, List.getElem?_cons_zero, Option.some.injEq] at hck
      rw [← hck]
      exact Nat.le_refl _
    | 1 =>
      simp only [envTwo, List.getElem?_cons_succ, List.getElem?_cons_zero,
        Option.some.injEq] at hck
      rw [← hck]
      exact Nat.le_refl _
    | (n + 2) =>
      simp [envTwo] at hck

end Scanner
